import Mathlib

/-!
# groupie-tracker: the detail and listing handlers of `backend/main.go`

A shallow embedding of `backend/main.go`.  The Go program talks to three
collaborators that are not part of the repository's Go source: the upstream
HTTP API (`http.Get` and `io.ReadAll`), the JSON decoder (`json.Unmarshal`) and
the template engine (`template.ParseFiles`, `Execute`).  They are gathered in
an environment `Env`; every function of the program is a pure function of that
environment which returns its Go result together with the list of effects it
performed (`Event`), in program order.

Conventions.
* A Go result pair `(v, err)` is a Lean pair `(v, err)` with `err : Option GoError`;
  `none` is Go's `nil` error.
* A Go slice or map is a `Slice`: `Slice.nil` is the `nil` value, `Slice.of xs`
  a non-nil value holding `xs`.
* Go's `int` is `Int`; identifiers are only compared for equality.
* The upstream is asked for every URL at most once per request, so its
  behaviour during one request is a function of the URL.
-/

namespace GroupieTracker

/-! ## Go values -/

/-- A Go slice (or map) value: `nil`, or a non-nil value holding `xs`. -/
inductive Slice (α : Type) where
  | nil : Slice α
  | of (xs : List α) : Slice α
deriving DecidableEq, Repr

/-- The elements a `for _, x := range s` loop visits, in order. -/
def Slice.elems {α : Type} : Slice α → List α
  | .nil => []
  | .of xs => xs

/-- Go's `len(s)`. -/
def Slice.len {α : Type} (s : Slice α) : Nat := s.elems.length

/-- A Go `error` value; `Error` is the text its `Error()` method returns. -/
structure GoError where
  Error : String
deriving DecidableEq, Repr

/-- A `[]byte`. -/
abbrev Bytes := Slice Char

/-! ## Constants and record types (lines 12-54) -/

def baseURL : String := "https://groupietrackers.herokuapp.com/api"
def artistsPath : String := "/artists"
def locationsPath : String := "/locations"
def datesPath : String := "/dates"
def relationPath : String := "/relation"

structure Artist where
  ID : Int
  Name : String
  Image : String
  Members : Slice String
  CreationDate : Int
  FirstAlbum : String
deriving DecidableEq, Repr

structure LocationDetails where
  ID : Int
  Locations : Slice String
deriving DecidableEq, Repr

structure LocationsResponse where
  Locations : Slice LocationDetails
deriving DecidableEq, Repr

structure Date where
  ID : Int
  Dates : Slice String
deriving DecidableEq, Repr

structure DatesResponse where
  Dates : Slice Date
deriving DecidableEq, Repr

/-- The field `DatesLocations` is a `map[string][]string`, kept as the list of
its entries; the program only carries it from the decoder to the template. -/
structure Relation where
  ID : Int
  DatesLocations : Slice (String × Slice String)
deriving DecidableEq, Repr

structure RelationsResponse where
  Relations : Slice Relation
deriving DecidableEq, Repr

/-- The zero value of `Artist` (`var artist Artist`). -/
def Artist.zero : Artist := ⟨0, "", "", .nil, 0, ""⟩
/-- The zero value of `LocationDetails` (`var location LocationDetails`). -/
def LocationDetails.zero : LocationDetails := ⟨0, .nil⟩
/-- The zero value of `Date` (`var date Date`). -/
def Date.zero : Date := ⟨0, .nil⟩
/-- The zero value of `Relation` (`var relation Relation`). -/
def Relation.zero : Relation := ⟨0, .nil⟩

/-! ## The environment -/

/-- What `http.Get` hands back on success: the status code and what
`io.ReadAll(resp.Body)` will return (the bytes read, and the read error). -/
structure HttpResponse where
  status : Nat
  readAll : Bytes × Option GoError
deriving DecidableEq, Repr

/-- The collaborators of the program.  Each `unmarshal*` field is
`json.Unmarshal(data, &v)` for a target `v` of that type holding its zero
value: it returns the target after the call and the error. -/
structure Env where
  httpGet : String → Except GoError HttpResponse
  unmarshalArtist : Bytes → Artist × Option GoError
  unmarshalArtists : Bytes → Slice Artist × Option GoError
  unmarshalLocations : Bytes → LocationsResponse × Option GoError
  unmarshalDates : Bytes → DatesResponse × Option GoError
  unmarshalRelations : Bytes → RelationsResponse × Option GoError
  parseFiles : String → Option GoError

/-- The argument of one of the three `fmt.Printf("... %v\n", _)` calls. -/
inductive Printed where
  | location (v : LocationDetails)
  | date (v : Date)
  | relation (v : Relation)
deriving DecidableEq, Repr

/-- An effect of the program other than the HTTP response it writes. -/
inductive Event where
  | httpGet (url : String)
  | logPrintf (format : String) (err : GoError)
  | fmtPrintf (format : String) (arg : Printed)
deriving DecidableEq, Repr

/-- The URLs passed to `http.Get`, in call order. -/
def fetched : List Event → List String
  | [] => []
  | .httpGet url :: rest => url :: fetched rest
  | _ :: rest => fetched rest

/-! ## Fetching and decoding (lines 56-119) -/

/-- `fetchData(url)`. -/
def fetchData (env : Env) (url : String) : (Bytes × Option GoError) × List Event :=
  match env.httpGet url with
  | .error err => ((.nil, some err), [.httpGet url])
  | .ok resp => (resp.readAll, [.httpGet url])

/-- `getFullURL(path)`. -/
def getFullURL (path : String) : String := baseURL ++ path

/-- `getLocations()`. -/
def getLocations (env : Env) : (Slice LocationDetails × Option GoError) × List Event :=
  match fetchData env (getFullURL locationsPath) with
  | ((_, some err), t) => ((.nil, some err), t ++ [.logPrintf "Error fetching locations: %v" err])
  | ((data, none), t) =>
    match env.unmarshalLocations data with
    | (_, some err) => ((.nil, some err), t ++ [.logPrintf "Error unmarshalling locations: %v" err])
    | (locationsResponse, none) => ((locationsResponse.Locations, none), t)

/-- `getDates()`. -/
def getDates (env : Env) : (Slice Date × Option GoError) × List Event :=
  match fetchData env (getFullURL datesPath) with
  | ((_, some err), t) => ((.nil, some err), t ++ [.logPrintf "Error fetching dates: %v" err])
  | ((data, none), t) =>
    match env.unmarshalDates data with
    | (_, some err) => ((.nil, some err), t ++ [.logPrintf "Error unmarshalling dates: %v" err])
    | (datesResponse, none) => ((datesResponse.Dates, none), t)

/-- `getRelations()`. -/
def getRelations (env : Env) : (Slice Relation × Option GoError) × List Event :=
  match fetchData env (getFullURL relationPath) with
  | ((_, some err), t) => ((.nil, some err), t ++ [.logPrintf "Error fetching relations: %v" err])
  | ((data, none), t) =>
    match env.unmarshalRelations data with
    | (_, some err) => ((.nil, some err), t ++ [.logPrintf "Error unmarshalling relations: %v" err])
    | (relationsResponse, none) => ((relationsResponse.Relations, none), t)

/-! ## The handlers (lines 121-246) -/

/-- The query of a request, `r.URL.Query()`: a `url.Values`, that is a
`map[string][]string`, kept as the list of its entries. -/
abbrev Values := List (String × List String)

/-- `url.Values.Get(key)`: the first value stored under `key`, or the empty
string when there is none. -/
def Values.Get (v : Values) (key : String) : String :=
  match v.lookup key with
  | some (first :: _) => first
  | _ => ""

/-- The part of `*http.Request` the handlers read. -/
structure Request where
  query : Values
deriving DecidableEq, Repr

/-- What a handler writes to its `http.ResponseWriter`: either one call
`http.Error(w, msg, code)`, or the header `Content-Type: text/html` followed
by `tmpl.Execute(w, data)` for the template parsed from `file`. -/
inductive Response (α : Type) where
  | httpError (msg : String) (code : Nat)
  | executed (file : String) (data : α)
deriving DecidableEq, Repr

/-- The anonymous struct handed to the detail template (lines 201-211). -/
structure ArtistView where
  Artist : Artist
  Location : LocationDetails
  Date : Date
  Relation : Relation
deriving DecidableEq, Repr

/-- The loop `for _, x := range xs { if x.ID == artistID { v = x; break } }`
run on a variable `v` holding `zero`: the value of `v` after the loop.  `idOf`
reads the field `ID`. -/
def rangeFirst {α : Type} (idOf : α → Int) (zero : α) (artistID : Int) : List α → α
  | [] => zero
  | x :: rest => if idOf x = artistID then x else rangeFirst idOf zero artistID rest

/-- `getArtistDetails(w, r)`. -/
def getArtistDetails (env : Env) (r : Request) : Response ArtistView × List Event :=
  let artistID := r.query.Get "id"
  if artistID = "" then
    (.httpError "Missing artist ID" 400, [])
  else
    match fetchData env (getFullURL (artistsPath ++ "/" ++ artistID)) with
    | ((_, some err), t0) =>
      (.httpError err.Error 500, t0 ++ [.logPrintf "Error fetching artist: %v" err])
    | ((artistData, none), t0) =>
      match env.unmarshalArtist artistData with
      | (_, some err) =>
        (.httpError err.Error 500, t0 ++ [.logPrintf "Error unmarshalling artist: %v" err])
      | (artist, none) =>
        match getLocations env with
        | ((_, some err), t1) =>
          (.httpError err.Error 500,
            t0 ++ t1 ++ [.logPrintf "Error fetching locations: %v" err])
        | ((locations, none), t1) =>
          match getDates env with
          | ((_, some err), t2) =>
            (.httpError err.Error 500,
              t0 ++ t1 ++ t2 ++ [.logPrintf "Error fetching dates: %v" err])
          | ((dates, none), t2) =>
            match getRelations env with
            | ((_, some err), t3) =>
              (.httpError err.Error 500,
                t0 ++ t1 ++ t2 ++ t3 ++ [.logPrintf "Error fetching relations: %v" err])
            | ((relations, none), t3) =>
              let location := rangeFirst LocationDetails.ID .zero artist.ID locations.elems
              let date := rangeFirst Date.ID .zero artist.ID dates.elems
              let relation := rangeFirst Relation.ID .zero artist.ID relations.elems
              match env.parseFiles "frontend/artists.html" with
              | some err =>
                (.httpError err.Error 500,
                  t0 ++ t1 ++ t2 ++ t3 ++ [.logPrintf "Error parsing template file: %v" err])
              | none =>
                let data : ArtistView := ⟨artist, location, date, relation⟩
                (.executed "frontend/artists.html" data,
                  t0 ++ t1 ++ t2 ++ t3 ++
                    [.fmtPrintf "Adata.Location: %v\n" (.location data.Location),
                     .fmtPrintf "Adata.date: %v\n" (.date data.Date),
                     .fmtPrintf "Adata.relation: %v\n" (.relation data.Relation)])

/-- `getArtists(w, r)`. -/
def getArtists (env : Env) (_r : Request) : Response (Slice Artist) × List Event :=
  match fetchData env (getFullURL artistsPath) with
  | ((_, some err), t0) =>
    (.httpError err.Error 500, t0 ++ [.logPrintf "Error fetching artists: %v" err])
  | ((data, none), t0) =>
    match env.unmarshalArtists data with
    | (_, some err) =>
      (.httpError err.Error 500, t0 ++ [.logPrintf "Error unmarshalling artists: %v" err])
    | (artists, none) =>
      match env.parseFiles "frontend/index.html" with
      | some err =>
        (.httpError err.Error 500, t0 ++ [.logPrintf "Error parsing template file: %v" err])
      | none => (.executed "frontend/index.html" artists, t0)

/-! ## The bulk accessors in an arbitrary order

The specification (section 4.4, step 2) lets the three bulk collections be
fetched in any order.  `getArtistDetailsIn` follows those words: it is the
detail handler with the three accessors run in the order given, each failure
handled as the source handles it, and everything else as in `getArtistDetails`. -/

/-- One of the three bulk accessors. -/
inductive Bulk where
  | locations
  | dates
  | relations
deriving DecidableEq, Repr

/-- The six orders in which the three accessors can run, named by the
initials of the accessors. -/
inductive BulkOrder where
  | ldr
  | lrd
  | dlr
  | drl
  | rld
  | rdl
deriving DecidableEq, Repr

def BulkOrder.accessors : BulkOrder → List Bulk
  | .ldr => [.locations, .dates, .relations]
  | .lrd => [.locations, .relations, .dates]
  | .dlr => [.dates, .locations, .relations]
  | .drl => [.dates, .relations, .locations]
  | .rld => [.relations, .locations, .dates]
  | .rdl => [.relations, .dates, .locations]

/-- The handler's local variables `locations`, `dates`, `relations`. -/
structure BulkData where
  locations : Slice LocationDetails
  dates : Slice Date
  relations : Slice Relation
deriving DecidableEq, Repr

/-- One accessor call with the handler's error check behind it (lines 145-150,
153-158 or 161-166). -/
def runBulk (env : Env) (b : Bulk) (acc : BulkData) : (BulkData × Option GoError) × List Event :=
  match b with
  | .locations =>
    match getLocations env with
    | ((_, some err), t) => ((acc, some err), t ++ [.logPrintf "Error fetching locations: %v" err])
    | ((locations, none), t) => ((⟨locations, acc.dates, acc.relations⟩, none), t)
  | .dates =>
    match getDates env with
    | ((_, some err), t) => ((acc, some err), t ++ [.logPrintf "Error fetching dates: %v" err])
    | ((dates, none), t) => ((⟨acc.locations, dates, acc.relations⟩, none), t)
  | .relations =>
    match getRelations env with
    | ((_, some err), t) => ((acc, some err), t ++ [.logPrintf "Error fetching relations: %v" err])
    | ((relations, none), t) => ((⟨acc.locations, acc.dates, relations⟩, none), t)

/-- The accessor calls of a list, in order, stopping at the first error. -/
def runBulks (env : Env) : List Bulk → BulkData → (BulkData × Option GoError) × List Event
  | [], acc => ((acc, none), [])
  | b :: rest, acc =>
    match runBulk env b acc with
    | ((acc1, some err), t) => ((acc1, some err), t)
    | ((acc1, none), t) =>
      match runBulks env rest acc1 with
      | (res, t1) => (res, t ++ t1)

/-- The detail handler with the three bulk accessors run in the order `order`. -/
def getArtistDetailsIn (order : BulkOrder) (env : Env) (r : Request) :
    Response ArtistView × List Event :=
  let artistID := r.query.Get "id"
  if artistID = "" then
    (.httpError "Missing artist ID" 400, [])
  else
    match fetchData env (getFullURL (artistsPath ++ "/" ++ artistID)) with
    | ((_, some err), t0) =>
      (.httpError err.Error 500, t0 ++ [.logPrintf "Error fetching artist: %v" err])
    | ((artistData, none), t0) =>
      match env.unmarshalArtist artistData with
      | (_, some err) =>
        (.httpError err.Error 500, t0 ++ [.logPrintf "Error unmarshalling artist: %v" err])
      | (artist, none) =>
        match runBulks env order.accessors ⟨.nil, .nil, .nil⟩ with
        | ((_, some err), tb) => (.httpError err.Error 500, t0 ++ tb)
        | ((bulk, none), tb) =>
          let location := rangeFirst LocationDetails.ID .zero artist.ID bulk.locations.elems
          let date := rangeFirst Date.ID .zero artist.ID bulk.dates.elems
          let relation := rangeFirst Relation.ID .zero artist.ID bulk.relations.elems
          match env.parseFiles "frontend/artists.html" with
          | some err =>
            (.httpError err.Error 500,
              t0 ++ tb ++ [.logPrintf "Error parsing template file: %v" err])
          | none =>
            let data : ArtistView := ⟨artist, location, date, relation⟩
            (.executed "frontend/artists.html" data,
              t0 ++ tb ++
                [.fmtPrintf "Adata.Location: %v\n" (.location data.Location),
                 .fmtPrintf "Adata.date: %v\n" (.date data.Date),
                 .fmtPrintf "Adata.relation: %v\n" (.relation data.Relation)])

/-! ## Concrete upstreams

Upstreams used to evaluate the handlers.  Each serves a table of pages, and
its decoders are tables over the bodies it serves: on those bodies they return
what `json.Unmarshal` returns, and they report any other body as malformed. -/

/-- A request whose query is `id=<id>`. -/
def detailRequest (id : String) : Request := ⟨[("id", [id])]⟩

/-- The body of the pages an upstream does not have: the JSON text of an
empty object. -/
def emptyObjectBody : Bytes := .of "\x7b\x7d".toList

/-- An upstream given by its pages; a URL outside the table is answered with
status 404 and `emptyObjectBody`. -/
def serve (pages : List (String × Except GoError HttpResponse)) (url : String) :
    Except GoError HttpResponse :=
  match pages.lookup url with
  | some answer => answer
  | none => .ok ⟨404, (emptyObjectBody, none)⟩

/-- A page answered with status 200 and the given body. -/
def page (path : String) (body : Bytes) : String × Except GoError HttpResponse :=
  (baseURL ++ path, .ok ⟨200, (body, none)⟩)

/-- A decoder given by a table; a body outside the table leaves the target
at its zero value and is reported as malformed. -/
def decodeBy {α : Type} (table : List (Bytes × α)) (zero : α) (data : Bytes) :
    α × Option GoError :=
  match table.lookup data with
  | some v => (v, none)
  | none => (zero, some ⟨"invalid character"⟩)

def queen : Artist := ⟨1, "Queen", "", .nil, 0, ""⟩
def queenLocation : LocationDetails := ⟨1, .of ["london", "paris"]⟩
def queenDate : Date := ⟨1, .of ["1975-01-01"]⟩
def queenRelation : Relation := ⟨1, .of [("london", .of ["1975-01-01"])]⟩

def queenBody : Bytes :=
  .of "\x7b\"id\":1,\"name\":\"Queen\"\x7d".toList
def artistsBody : Bytes :=
  .of "[\x7b\"id\":1,\"name\":\"Queen\"\x7d]".toList
def locationsBody : Bytes :=
  .of ("\x7b\"index\":[\x7b\"id\":1,\"locations\":[\"london\",\"paris\"]\x7d]" ++
    "\x7d").toList
def datesBody : Bytes :=
  .of "\x7b\"index\":[\x7b\"id\":1,\"dates\":[\"1975-01-01\"]\x7d]\x7d".toList
def relationsBody : Bytes :=
  .of ("\x7b\"index\":[\x7b\"id\":1,\"datesLocations\":\x7b\"london\":[\"1975-01" ++
    "-01\"]\x7d\x7d]\x7d").toList

/-- The upstream of the specification's scenario: one artist, Queen, with one
record in each bulk collection. -/
def queenEnv : Env where
  httpGet := serve [page "/artists/1" queenBody, page "/artists" artistsBody,
    page "/locations" locationsBody, page "/dates" datesBody, page "/relation" relationsBody]
  unmarshalArtist := decodeBy [(queenBody, queen), (emptyObjectBody, .zero)] .zero
  unmarshalArtists := decodeBy [(artistsBody, .of [queen])] .nil
  unmarshalLocations := decodeBy [(locationsBody, ⟨.of [queenLocation]⟩)] ⟨.nil⟩
  unmarshalDates := decodeBy [(datesBody, ⟨.of [queenDate]⟩)] ⟨.nil⟩
  unmarshalRelations := decodeBy [(relationsBody, ⟨.of [queenRelation]⟩)] ⟨.nil⟩
  parseFiles _ := none

def duplicateLocationsBody : Bytes :=
  .of ("\x7b\"index\":[\x7b\"id\":2,\"locations\":[\"oslo\"]\x7d,\x7b\"id\":1,\"" ++
    "locations\":[\"london\"]\x7d,\x7b\"id\":1,\"locations\":[\"paris\"]\x7d]" ++
    "\x7d").toList
def duplicateDatesBody : Bytes :=
  .of ("\x7b\"index\":[\x7b\"id\":1,\"dates\":[\"1975-01-01\"]\x7d,\x7b\"id\":1," ++
    "\"dates\":[\"1986-07-12\"]\x7d]\x7d").toList
def duplicateRelationsBody : Bytes :=
  .of ("\x7b\"index\":[\x7b\"id\":3,\"datesLocations\":\x7b\x7d\x7d,\x7b\"id\":2" ++
    ",\"datesLocations\":\x7b\x7d\x7d,\x7b\"id\":1,\"datesLocations\":\x7b\"l" ++
    "ondon\":[\"1975-01-01\"]\x7d\x7d,\x7b\"id\":1,\"datesLocations\":\x7b\"p" ++
    "aris\":[\"1986-07-12\"]\x7d\x7d]\x7d").toList

/-- An upstream whose bulk collections hold two records with identifier 1. -/
def duplicateEnv : Env where
  httpGet := serve [page "/artists/1" queenBody, page "/locations" duplicateLocationsBody,
    page "/dates" duplicateDatesBody, page "/relation" duplicateRelationsBody]
  unmarshalArtist := decodeBy [(queenBody, queen)] .zero
  unmarshalArtists := decodeBy [] .nil
  unmarshalLocations := decodeBy [(duplicateLocationsBody,
    ⟨.of [⟨2, .of ["oslo"]⟩, ⟨1, .of ["london"]⟩, ⟨1, .of ["paris"]⟩]⟩)] ⟨.nil⟩
  unmarshalDates := decodeBy [(duplicateDatesBody,
    ⟨.of [⟨1, .of ["1975-01-01"]⟩, ⟨1, .of ["1986-07-12"]⟩]⟩)] ⟨.nil⟩
  unmarshalRelations := decodeBy [(duplicateRelationsBody,
    ⟨.of [⟨3, .of []⟩, ⟨2, .of []⟩, ⟨1, .of [("london", .of ["1975-01-01"])]⟩,
      ⟨1, .of [("paris", .of ["1986-07-12"])]⟩]⟩)] ⟨.nil⟩
  parseFiles _ := none

def noLocationsBody : Bytes :=
  .of "\x7b\"index\":[]\x7d".toList
def otherDatesBody : Bytes :=
  .of "\x7b\"index\":[\x7b\"id\":2,\"dates\":[\"1999-12-31\"]\x7d]\x7d".toList

/-- An upstream with no record for Queen in any bulk collection: the locations
collection is empty, the dates collection holds another artist's record, and
the relations page is an empty object, which decodes to a `nil` collection. -/
def sparseEnv : Env where
  httpGet := serve [page "/artists/1" queenBody, page "/locations" noLocationsBody,
    page "/dates" otherDatesBody, page "/relation" emptyObjectBody]
  unmarshalArtist := decodeBy [(queenBody, queen)] .zero
  unmarshalArtists := decodeBy [] .nil
  unmarshalLocations := decodeBy [(noLocationsBody, ⟨.of []⟩)] ⟨.nil⟩
  unmarshalDates := decodeBy [(otherDatesBody, ⟨.of [⟨2, .of ["1999-12-31"]⟩]⟩)] ⟨.nil⟩
  unmarshalRelations := decodeBy [(emptyObjectBody, ⟨.nil⟩)] ⟨.nil⟩
  parseFiles _ := none

/-- The scenario's upstream with the dates page unreachable: `http.Get`
fails for it. -/
def datesDownEnv : Env :=
  { queenEnv with
    httpGet := serve [page "/artists/1" queenBody, page "/locations" locationsBody,
      (baseURL ++ "/dates", .error ⟨"dial tcp: connection refused"⟩),
      page "/relation" relationsBody] }

/-- The scenario's upstream with both the locations page and the dates page
unreachable, each with an error of its own. -/
def twoDownEnv : Env :=
  { queenEnv with
    httpGet := serve [page "/artists/1" queenBody,
      (baseURL ++ "/locations", .error ⟨"locations: connection refused"⟩),
      (baseURL ++ "/dates", .error ⟨"dates: connection reset by peer"⟩),
      page "/relation" relationsBody] }

/-- The body of an error page that is not JSON. -/
def errorPageBody : Bytes := .of "<html>Service Unavailable</html>".toList

/-- The body of a plain-text not-found page. -/
def notFoundBody : Bytes := .of "404 page not found".toList

/-- The scenario's upstream with the relations page answered by an HTML error
page under status 503, the artists listing cut off while its body is read, and
the page of artist 2 answered by a plain-text not-found page. -/
def errorPageEnv : Env :=
  { queenEnv with
    httpGet := serve [page "/artists/1" queenBody,
      (baseURL ++ "/artists/2", .ok ⟨404, (notFoundBody, none)⟩),
      (baseURL ++ "/artists", .ok ⟨200, (.of "[".toList, some ⟨"unexpected EOF"⟩)⟩),
      page "/locations" locationsBody, page "/dates" datesBody,
      (baseURL ++ "/relation", .ok ⟨503, (errorPageBody, none)⟩)] }

/-- The environment `env` with the status of every upstream answer replaced
by `status url`; bodies, errors, decoders and templates are those of `env`. -/
def Env.withStatus (env : Env) (status : String → Nat) : Env :=
  { env with
    httpGet := fun url =>
      match env.httpGet url with
      | .error err => .error err
      | .ok resp => .ok ⟨status url, resp.readAll⟩ }

/-- At most one of the three bulk accessors fails. -/
def atMostOneBulkFails (env : Env) : Prop :=
  ((getLocations env).1.2 = none ∧ (getDates env).1.2 = none) ∨
  ((getLocations env).1.2 = none ∧ (getRelations env).1.2 = none) ∨
  ((getDates env).1.2 = none ∧ (getRelations env).1.2 = none)

/-- The error with which a bulk accessor fails, `none` when it succeeds. -/
def bulkError (env : Env) : Bulk → Option GoError
  | .locations => (getLocations env).1.2
  | .dates => (getDates env).1.2
  | .relations => (getRelations env).1.2

/-! ## Lemmas on the correlation loop -/

theorem rangeFirst_of_first {α : Type} (idOf : α → Int) (zero : α) (artistID : Int)
    (xs : List α) (i : Nat) (h : i < xs.length) (hi : idOf xs[i] = artistID)
    (hbefore : ∀ x ∈ xs.take i, idOf x ≠ artistID) :
    rangeFirst idOf zero artistID xs = xs[i] := by
  induction xs generalizing i with
  | nil => simp at h
  | cons x rest ih =>
    cases i with
    | zero =>
      simp only [List.getElem_cons_zero] at hi
      simp [rangeFirst, hi]
    | succ k =>
      have hx : idOf x ≠ artistID := hbefore x (by simp)
      have hk : k < rest.length := by simpa using h
      simp only [rangeFirst, hx, if_false, List.getElem_cons_succ]
      apply ih k hk
      · simpa using hi
      · intro y hy
        exact hbefore y (by simp [hy])

theorem rangeFirst_of_absent {α : Type} (idOf : α → Int) (zero : α) (artistID : Int)
    (xs : List α) (habsent : ∀ x ∈ xs, idOf x ≠ artistID) :
    rangeFirst idOf zero artistID xs = zero := by
  induction xs with
  | nil => rfl
  | cons x rest ih =>
    have hx : idOf x ≠ artistID := habsent x (by simp)
    simp only [rangeFirst, hx, if_false]
    exact ih (fun y hy => habsent y (by simp [hy]))

/-! ## Lemmas on the handlers -/

/-- The outcome of the detail handler once the artist and the three bulk
collections are fetched and decoded. -/
theorem getArtistDetails_of_success (env : Env) (r : Request) (data : Bytes) (a : Artist)
    (locs : Slice LocationDetails) (dates : Slice Date) (rels : Slice Relation)
    (hid : r.query.Get "id" ≠ "")
    (hA : (fetchData env (getFullURL (artistsPath ++ "/" ++ r.query.Get "id"))).1 = (data, none))
    (hU : env.unmarshalArtist data = (a, none))
    (hL : (getLocations env).1 = (locs, none))
    (hD : (getDates env).1 = (dates, none))
    (hR : (getRelations env).1 = (rels, none)) :
    (getArtistDetails env r).1 =
      match env.parseFiles "frontend/artists.html" with
      | some err => .httpError err.Error 500
      | none => .executed "frontend/artists.html"
          ⟨a, rangeFirst LocationDetails.ID .zero a.ID locs.elems,
            rangeFirst Date.ID .zero a.ID dates.elems,
            rangeFirst Relation.ID .zero a.ID rels.elems⟩ := by
  rcases hA1 : fetchData env (getFullURL (artistsPath ++ "/" ++ r.query.Get "id")) with ⟨⟨d0, e0⟩, t0⟩
  rcases hL1 : getLocations env with ⟨⟨l1, e1⟩, t1⟩
  rcases hD1 : getDates env with ⟨⟨l2, e2⟩, t2⟩
  rcases hR1 : getRelations env with ⟨⟨l3, e3⟩, t3⟩
  simp only [hA1, hL1, hD1, hR1, Prod.mk.injEq] at hA hL hD hR
  obtain ⟨rfl, rfl⟩ := hA
  obtain ⟨rfl, rfl⟩ := hL
  obtain ⟨rfl, rfl⟩ := hD
  obtain ⟨rfl, rfl⟩ := hR
  unfold getArtistDetails
  simp only [hid, if_false, hA1, hU, hL1, hD1, hR1]
  cases env.parseFiles "frontend/artists.html" <;> rfl

/-- `fetchData` performs exactly one `http.Get`, on its argument. -/
theorem fetchData_events (env : Env) (url : String) :
    (fetchData env url).2 = [.httpGet url] := by
  unfold fetchData
  cases env.httpGet url <;> rfl

theorem fetched_append (s t : List Event) : fetched (s ++ t) = fetched s ++ fetched t := by
  induction s with
  | nil => rfl
  | cons ev rest ih => cases ev <;> simp [fetched, ih]

theorem fetched_getLocations (env : Env) :
    fetched (getLocations env).2 = [getFullURL locationsPath] := by
  have hev := fetchData_events env (getFullURL locationsPath)
  unfold getLocations
  rcases hf : fetchData env (getFullURL locationsPath) with ⟨⟨data, _ | err⟩, t⟩
  · rw [hf] at hev
    subst hev
    rcases hu : env.unmarshalLocations data with ⟨resp, _ | err⟩ <;> simp [hu, fetched]
  · rw [hf] at hev
    subst hev
    simp [fetched]

theorem fetched_getDates (env : Env) :
    fetched (getDates env).2 = [getFullURL datesPath] := by
  have hev := fetchData_events env (getFullURL datesPath)
  unfold getDates
  rcases hf : fetchData env (getFullURL datesPath) with ⟨⟨data, _ | err⟩, t⟩
  · rw [hf] at hev
    subst hev
    rcases hu : env.unmarshalDates data with ⟨resp, _ | err⟩ <;> simp [hu, fetched]
  · rw [hf] at hev
    subst hev
    simp [fetched]

theorem fetched_getRelations (env : Env) :
    fetched (getRelations env).2 = [getFullURL relationPath] := by
  have hev := fetchData_events env (getFullURL relationPath)
  unfold getRelations
  rcases hf : fetchData env (getFullURL relationPath) with ⟨⟨data, _ | err⟩, t⟩
  · rw [hf] at hev
    subst hev
    rcases hu : env.unmarshalRelations data with ⟨resp, _ | err⟩ <;> simp [hu, fetched]
  · rw [hf] at hev
    subst hev
    simp [fetched]

/-- What `getLocations` returns, by the outcome of its fetch and its decode. -/
theorem getLocations_result (env : Env) :
    (getLocations env).1 =
      match (fetchData env (getFullURL locationsPath)).1 with
      | (_, some err) => (.nil, some err)
      | (data, none) =>
        match env.unmarshalLocations data with
        | (_, some err) => (.nil, some err)
        | (resp, none) => (resp.Locations, none) := by
  unfold getLocations
  rcases hf : fetchData env (getFullURL locationsPath) with ⟨⟨data, _ | err⟩, t⟩
  · rcases hu : env.unmarshalLocations data with ⟨resp, _ | err⟩ <;> simp [hu]
  · simp

/-- What `getDates` returns, by the outcome of its fetch and its decode. -/
theorem getDates_result (env : Env) :
    (getDates env).1 =
      match (fetchData env (getFullURL datesPath)).1 with
      | (_, some err) => (.nil, some err)
      | (data, none) =>
        match env.unmarshalDates data with
        | (_, some err) => (.nil, some err)
        | (resp, none) => (resp.Dates, none) := by
  unfold getDates
  rcases hf : fetchData env (getFullURL datesPath) with ⟨⟨data, _ | err⟩, t⟩
  · rcases hu : env.unmarshalDates data with ⟨resp, _ | err⟩ <;> simp [hu]
  · simp

/-- What `getRelations` returns, by the outcome of its fetch and its decode. -/
theorem getRelations_result (env : Env) :
    (getRelations env).1 =
      match (fetchData env (getFullURL relationPath)).1 with
      | (_, some err) => (.nil, some err)
      | (data, none) =>
        match env.unmarshalRelations data with
        | (_, some err) => (.nil, some err)
        | (resp, none) => (resp.Relations, none) := by
  unfold getRelations
  rcases hf : fetchData env (getFullURL relationPath) with ⟨⟨data, _ | err⟩, t⟩
  · rcases hu : env.unmarshalRelations data with ⟨resp, _ | err⟩ <;> simp [hu]
  · simp

/-- The response of the detail handler and the URLs it fetched, for a
non-empty `id`, by the outcome of each step. -/
theorem getArtistDetails_summary (env : Env) (r : Request) (hid : r.query.Get "id" ≠ "") :
    ((getArtistDetails env r).1, fetched (getArtistDetails env r).2) =
      match (fetchData env (getFullURL (artistsPath ++ "/" ++ r.query.Get "id"))).1 with
      | (_, some err) =>
        (.httpError err.Error 500, [getFullURL (artistsPath ++ "/" ++ r.query.Get "id")])
      | (data, none) =>
        match env.unmarshalArtist data with
        | (_, some err) =>
          (.httpError err.Error 500, [getFullURL (artistsPath ++ "/" ++ r.query.Get "id")])
        | (a, none) =>
          match (getLocations env).1 with
          | (_, some err) =>
            (.httpError err.Error 500,
              [getFullURL (artistsPath ++ "/" ++ r.query.Get "id"), getFullURL locationsPath])
          | (locs, none) =>
            match (getDates env).1 with
            | (_, some err) =>
              (.httpError err.Error 500,
                [getFullURL (artistsPath ++ "/" ++ r.query.Get "id"), getFullURL locationsPath,
                  getFullURL datesPath])
            | (dates, none) =>
              match (getRelations env).1 with
              | (_, some err) =>
                (.httpError err.Error 500,
                  [getFullURL (artistsPath ++ "/" ++ r.query.Get "id"),
                    getFullURL locationsPath, getFullURL datesPath, getFullURL relationPath])
              | (rels, none) =>
                (match env.parseFiles "frontend/artists.html" with
                  | some err => .httpError err.Error 500
                  | none => .executed "frontend/artists.html"
                      ⟨a, rangeFirst LocationDetails.ID .zero a.ID locs.elems,
                        rangeFirst Date.ID .zero a.ID dates.elems,
                        rangeFirst Relation.ID .zero a.ID rels.elems⟩,
                  [getFullURL (artistsPath ++ "/" ++ r.query.Get "id"),
                    getFullURL locationsPath, getFullURL datesPath, getFullURL relationPath]) := by
  have h0 := fetchData_events env (getFullURL (artistsPath ++ "/" ++ r.query.Get "id"))
  have h1 := fetched_getLocations env
  have h2 := fetched_getDates env
  have h3 := fetched_getRelations env
  unfold getArtistDetails
  simp only [hid, if_false]
  rcases hf : fetchData env (getFullURL (artistsPath ++ "/" ++ r.query.Get "id")) with
    ⟨⟨data, _ | e0⟩, t0⟩
  · rw [hf] at h0
    subst h0
    rcases hu : env.unmarshalArtist data with ⟨a, _ | eu⟩
    · rcases hl : getLocations env with ⟨⟨locs, _ | e1⟩, t1⟩
      · rw [hl] at h1
        rcases hd : getDates env with ⟨⟨dates, _ | e2⟩, t2⟩
        · rw [hd] at h2
          rcases hr : getRelations env with ⟨⟨rels, _ | e3⟩, t3⟩
          · rw [hr] at h3
            simp only at h1 h2 h3
            cases env.parseFiles "frontend/artists.html" <;>
              simp [hu, fetched_append, fetched, h1, h2, h3]
          · rw [hr] at h3
            simp only at h1 h2 h3
            simp [hu, fetched_append, fetched, h1, h2, h3]
        · rw [hd] at h2
          simp only at h1 h2
          simp [hu, fetched_append, fetched, h1, h2]
      · rw [hl] at h1
        simp only at h1
        simp [hu, fetched_append, fetched, h1]
    · simp [hu, fetched]
  · rw [hf] at h0
    subst h0
    simp [fetched]

theorem getLocations_fetch_error (env : Env) (e : GoError)
    (h : (fetchData env (getFullURL locationsPath)).1.2 = some e) :
    (getLocations env).1 = (.nil, some e) := by
  rw [getLocations_result]
  rcases hf : (fetchData env (getFullURL locationsPath)).1 with ⟨data, _ | err⟩
  · simp [hf] at h
  · simp only [hf, Option.some.injEq] at h
    simp [h]

theorem getDates_fetch_error (env : Env) (e : GoError)
    (h : (fetchData env (getFullURL datesPath)).1.2 = some e) :
    (getDates env).1 = (.nil, some e) := by
  rw [getDates_result]
  rcases hf : (fetchData env (getFullURL datesPath)).1 with ⟨data, _ | err⟩
  · simp [hf] at h
  · simp only [hf, Option.some.injEq] at h
    simp [h]

theorem getRelations_fetch_error (env : Env) (e : GoError)
    (h : (fetchData env (getFullURL relationPath)).1.2 = some e) :
    (getRelations env).1 = (.nil, some e) := by
  rw [getRelations_result]
  rcases hf : (fetchData env (getFullURL relationPath)).1 with ⟨data, _ | err⟩
  · simp [hf] at h
  · simp only [hf, Option.some.injEq] at h
    simp [h]

theorem fetchData_withStatus (env : Env) (status : String → Nat) (url : String) :
    fetchData (env.withStatus status) url = fetchData env url := by
  unfold fetchData Env.withStatus
  rcases hg : env.httpGet url with err | resp <;> simp only [hg]

theorem getLocations_withStatus (env : Env) (status : String → Nat) :
    getLocations (env.withStatus status) = getLocations env := by
  unfold getLocations
  rw [fetchData_withStatus]
  rfl

theorem getDates_withStatus (env : Env) (status : String → Nat) :
    getDates (env.withStatus status) = getDates env := by
  unfold getDates
  rw [fetchData_withStatus]
  rfl

theorem getRelations_withStatus (env : Env) (status : String → Nat) :
    getRelations (env.withStatus status) = getRelations env := by
  unfold getRelations
  rw [fetchData_withStatus]
  rfl

theorem getArtistDetails_withStatus (env : Env) (status : String → Nat) (r : Request) :
    getArtistDetails (env.withStatus status) r = getArtistDetails env r := by
  unfold getArtistDetails
  simp only [fetchData_withStatus, getLocations_withStatus, getDates_withStatus,
    getRelations_withStatus]
  rfl

theorem fetched_getArtists (env : Env) (r : Request) :
    fetched (getArtists env r).2 = [getFullURL artistsPath] := by
  have hev := fetchData_events env (getFullURL artistsPath)
  unfold getArtists
  rcases hf : fetchData env (getFullURL artistsPath) with ⟨⟨data, _ | err⟩, t⟩
  · rw [hf] at hev
    subst hev
    rcases hu : env.unmarshalArtists data with ⟨artists, _ | err⟩
    · cases hp : env.parseFiles "frontend/index.html" <;> simp [hu, hp, fetched]
    · simp [hu, fetched]
  · rw [hf] at hev
    subst hev
    simp [fetched]

/-- What `getArtists` answers, by the outcome of each step. -/
theorem getArtists_result (env : Env) (r : Request) :
    (getArtists env r).1 =
      match (fetchData env (getFullURL artistsPath)).1 with
      | (_, some err) => .httpError err.Error 500
      | (data, none) =>
        match env.unmarshalArtists data with
        | (_, some err) => .httpError err.Error 500
        | (artists, none) =>
          match env.parseFiles "frontend/index.html" with
          | some err => .httpError err.Error 500
          | none => .executed "frontend/index.html" artists := by
  unfold getArtists
  rcases hf : fetchData env (getFullURL artistsPath) with ⟨⟨data, _ | err⟩, t⟩
  · rcases hu : env.unmarshalArtists data with ⟨artists, _ | err⟩
    · cases hp : env.parseFiles "frontend/index.html" <;> simp [hu, hp]
    · simp [hu]
  · simp

theorem artist_url (id : String) :
    getFullURL (artistsPath ++ "/" ++ id) = baseURL ++ "/artists/" ++ id := by
  unfold getFullURL artistsPath
  rw [String.append_assoc baseURL, show "/artists" ++ "/" = "/artists/" from by decide]

/-- Run in the order of the source, `getArtistDetailsIn` is `getArtistDetails`:
same response and same effects. -/
theorem getArtistDetailsIn_ldr (env : Env) (r : Request) :
    getArtistDetailsIn .ldr env r = getArtistDetails env r := by
  unfold getArtistDetailsIn getArtistDetails
  by_cases hid : r.query.Get "id" = ""
  · simp only [hid, if_true]
  · simp only [hid, if_false]
    rcases h0 : fetchData env (getFullURL (artistsPath ++ "/" ++ r.query.Get "id")) with
      ⟨⟨data, _ | e0⟩, t0⟩
    · rcases hu : env.unmarshalArtist data with ⟨a, _ | eu⟩
      · rcases hL : getLocations env with ⟨⟨locs, _ | e1⟩, t1⟩ <;>
          rcases hD : getDates env with ⟨⟨dates, _ | e2⟩, t2⟩ <;>
          rcases hR : getRelations env with ⟨⟨rels, _ | e3⟩, t3⟩ <;>
          cases hp : env.parseFiles "frontend/artists.html" <;>
          simp [hu, BulkOrder.accessors, runBulks, runBulk, hL, hD, hR, hp]
      · simp only [hu]
    · rfl

/-- Once the artist is fetched and decoded, the handler run in the order
`order` answers the error of the first accessor, in that order, that fails. -/
theorem getArtistDetailsIn_first_error (order : BulkOrder) (env : Env) (r : Request)
    (data : Bytes) (a : Artist) (e : GoError) (i : Nat) (h : i < order.accessors.length)
    (hid : r.query.Get "id" ≠ "")
    (hf : (fetchData env (getFullURL (artistsPath ++ "/" ++ r.query.Get "id"))).1 = (data, none))
    (hu : env.unmarshalArtist data = (a, none))
    (hi : bulkError env order.accessors[i] = some e)
    (hbefore : ∀ b ∈ order.accessors.take i, bulkError env b = none) :
    (getArtistDetailsIn order env r).1 = .httpError e.Error 500 := by
  have hlen : order.accessors.length = 3 := by cases order <;> rfl
  have hi3 : i < 3 := hlen ▸ h
  unfold getArtistDetailsIn
  simp only [hid, if_false]
  rcases h0 : fetchData env (getFullURL (artistsPath ++ "/" ++ r.query.Get "id")) with
    ⟨⟨d0, e0⟩, t0⟩
  rw [h0] at hf
  simp only [Prod.mk.injEq] at hf
  obtain ⟨rfl, rfl⟩ := hf
  simp only [hu]
  rcases i with _ | _ | _ | i
  iterate 3
    · rcases hL : getLocations env with ⟨⟨locs, _ | e1⟩, t1⟩ <;>
        rcases hD : getDates env with ⟨⟨dates, _ | e2⟩, t2⟩ <;>
        rcases hR : getRelations env with ⟨⟨rels, _ | e3⟩, t3⟩ <;>
        cases order <;>
        simp [BulkOrder.accessors, bulkError, hL, hD, hR] at hi hbefore <;>
        simp [BulkOrder.accessors, runBulks, runBulk, hL, hD, hR, hi]
  · omega

/-! ## Correlation -/

/-- C1: in `getArtistDetails`, once the artist and the three collections are
fetched and decoded (and the page template parses, so that a view is built),
each of the fields `Location`, `Date`, `Relation` of the view is the record at
the smallest index of its collection whose `ID` equals `artist.ID`, whenever
there is such a record: the first one in collection order wins. -/
theorem getArtistDetails_first_match_wins (env : Env) (r : Request) (data : Bytes) (a : Artist)
    (locs : Slice LocationDetails) (dates : Slice Date) (rels : Slice Relation)
    (hid : r.query.Get "id" ≠ "")
    (hA : (fetchData env (getFullURL (artistsPath ++ "/" ++ r.query.Get "id"))).1 = (data, none))
    (hU : env.unmarshalArtist data = (a, none))
    (hL : (getLocations env).1 = (locs, none))
    (hD : (getDates env).1 = (dates, none))
    (hR : (getRelations env).1 = (rels, none))
    (hT : env.parseFiles "frontend/artists.html" = none) :
    ∃ view : ArtistView,
      (getArtistDetails env r).1 = .executed "frontend/artists.html" view ∧
      (∀ i (h : i < locs.elems.length), locs.elems[i].ID = a.ID →
        (∀ x ∈ locs.elems.take i, x.ID ≠ a.ID) → view.Location = locs.elems[i]) ∧
      (∀ i (h : i < dates.elems.length), dates.elems[i].ID = a.ID →
        (∀ x ∈ dates.elems.take i, x.ID ≠ a.ID) → view.Date = dates.elems[i]) ∧
      (∀ i (h : i < rels.elems.length), rels.elems[i].ID = a.ID →
        (∀ x ∈ rels.elems.take i, x.ID ≠ a.ID) → view.Relation = rels.elems[i]) := by
  refine ⟨⟨a, rangeFirst LocationDetails.ID .zero a.ID locs.elems,
    rangeFirst Date.ID .zero a.ID dates.elems, rangeFirst Relation.ID .zero a.ID rels.elems⟩,
    ?_, ?_, ?_, ?_⟩
  · rw [getArtistDetails_of_success env r data a locs dates rels hid hA hU hL hD hR, hT]
  · intro i h hi hbefore
    exact rangeFirst_of_first LocationDetails.ID .zero a.ID locs.elems i h hi hbefore
  · intro i h hi hbefore
    exact rangeFirst_of_first Date.ID .zero a.ID dates.elems i h hi hbefore
  · intro i h hi hbefore
    exact rangeFirst_of_first Relation.ID .zero a.ID rels.elems i h hi hbefore

set_option maxRecDepth 100000 in
/-- C1 at `duplicateEnv`: of the two records with identifier 1 in each
collection, the view holds the earlier one. -/
theorem getArtistDetails_first_match_wins_witness :
    ∃ view : ArtistView,
      (getArtistDetails duplicateEnv (detailRequest "1")).1 =
        .executed "frontend/artists.html" view ∧
      view.Location = ⟨1, .of ["london"]⟩ ∧
      view.Date = ⟨1, .of ["1975-01-01"]⟩ ∧
      view.Relation = ⟨1, .of [("london", .of ["1975-01-01"])]⟩ := by
  obtain ⟨view, hview, hloc, hdate, hrel⟩ :=
    getArtistDetails_first_match_wins duplicateEnv (detailRequest "1") queenBody queen
      (.of [⟨2, .of ["oslo"]⟩, ⟨1, .of ["london"]⟩, ⟨1, .of ["paris"]⟩])
      (.of [⟨1, .of ["1975-01-01"]⟩, ⟨1, .of ["1986-07-12"]⟩])
      (.of [⟨3, .of []⟩, ⟨2, .of []⟩, ⟨1, .of [("london", .of ["1975-01-01"])]⟩,
        ⟨1, .of [("paris", .of ["1986-07-12"])]⟩])
      (by decide) (by decide) (by decide) (by decide) (by decide) (by decide) (by decide)
  exact ⟨view, hview, hloc 1 (by decide) (by decide) (by decide),
    hdate 0 (by decide) (by decide) (by decide), hrel 2 (by decide) (by decide) (by decide)⟩

/-- C2: in `getArtistDetails`, once the artist and the three collections are
fetched and decoded (and the page template parses), the handler answers with
the page, and for each collection in which no record has `ID` equal to
`artist.ID` the field of the view is the zero value of its record type:
identifier 0 and a list (or mapping) of length 0.  The three fields are record
values, not pointers, so none of them can be null. -/
theorem getArtistDetails_placeholder_when_absent (env : Env) (r : Request) (data : Bytes)
    (a : Artist) (locs : Slice LocationDetails) (dates : Slice Date) (rels : Slice Relation)
    (hid : r.query.Get "id" ≠ "")
    (hA : (fetchData env (getFullURL (artistsPath ++ "/" ++ r.query.Get "id"))).1 = (data, none))
    (hU : env.unmarshalArtist data = (a, none))
    (hL : (getLocations env).1 = (locs, none))
    (hD : (getDates env).1 = (dates, none))
    (hR : (getRelations env).1 = (rels, none))
    (hT : env.parseFiles "frontend/artists.html" = none) :
    ∃ view : ArtistView,
      (getArtistDetails env r).1 = .executed "frontend/artists.html" view ∧
      view.Artist = a ∧
      ((∀ x ∈ locs.elems, x.ID ≠ a.ID) →
        view.Location = .zero ∧ view.Location.ID = 0 ∧ view.Location.Locations.len = 0) ∧
      ((∀ x ∈ dates.elems, x.ID ≠ a.ID) →
        view.Date = .zero ∧ view.Date.ID = 0 ∧ view.Date.Dates.len = 0) ∧
      ((∀ x ∈ rels.elems, x.ID ≠ a.ID) →
        view.Relation = .zero ∧ view.Relation.ID = 0 ∧ view.Relation.DatesLocations.len = 0) := by
  refine ⟨⟨a, rangeFirst LocationDetails.ID .zero a.ID locs.elems,
    rangeFirst Date.ID .zero a.ID dates.elems, rangeFirst Relation.ID .zero a.ID rels.elems⟩,
    ?_, rfl, ?_, ?_, ?_⟩
  · rw [getArtistDetails_of_success env r data a locs dates rels hid hA hU hL hD hR, hT]
  · intro habsent
    dsimp only
    rw [rangeFirst_of_absent LocationDetails.ID .zero a.ID locs.elems habsent]
    exact ⟨rfl, rfl, rfl⟩
  · intro habsent
    dsimp only
    rw [rangeFirst_of_absent Date.ID .zero a.ID dates.elems habsent]
    exact ⟨rfl, rfl, rfl⟩
  · intro habsent
    dsimp only
    rw [rangeFirst_of_absent Relation.ID .zero a.ID rels.elems habsent]
    exact ⟨rfl, rfl, rfl⟩

/-- C2 at `sparseEnv`: an empty collection, a collection without a record for
the artist and a `nil` collection all give the zero-valued record. -/
theorem getArtistDetails_placeholder_when_absent_witness :
    (getArtistDetails sparseEnv (detailRequest "1")).1 =
      .executed "frontend/artists.html" ⟨queen, ⟨0, .nil⟩, ⟨0, .nil⟩, ⟨0, .nil⟩⟩ := by
  obtain ⟨view, hview, hartist, hloc, hdate, hrel⟩ :=
    getArtistDetails_placeholder_when_absent sparseEnv (detailRequest "1") queenBody queen
      (.of []) (.of [⟨2, .of ["1999-12-31"]⟩]) .nil
      (by decide) (by decide) (by decide) (by decide) (by decide) (by decide) (by decide)
  obtain ⟨view_artist, view_location, view_date, view_relation⟩ := view
  simp only at hartist hloc hdate hrel
  rw [hview, hartist, (hloc (by decide)).1, (hdate (by decide)).1, (hrel (by decide)).1]
  rfl

/-- C6: when the single-artist endpoint serves the record of the requested
artist (identifier `n`) and the three bulk collections are fetched and decoded
(and the page template parses), `getArtistDetails` produces a view whose
`Artist` is exactly the record decoded from the `/artists/<id>` answer, so its
`ID` is `n`; the other three fields are the results of the correlation loops. -/
theorem getArtistDetails_view_artist (env : Env) (r : Request) (data : Bytes) (a : Artist)
    (n : Int) (locs : Slice LocationDetails) (dates : Slice Date) (rels : Slice Relation)
    (hid : r.query.Get "id" ≠ "")
    (hA : (fetchData env (getFullURL (artistsPath ++ "/" ++ r.query.Get "id"))).1 = (data, none))
    (hU : env.unmarshalArtist data = (a, none))
    (hn : a.ID = n)
    (hL : (getLocations env).1 = (locs, none))
    (hD : (getDates env).1 = (dates, none))
    (hR : (getRelations env).1 = (rels, none))
    (hT : env.parseFiles "frontend/artists.html" = none) :
    ∃ view : ArtistView,
      (getArtistDetails env r).1 = .executed "frontend/artists.html" view ∧
      view.Artist = a ∧ view.Artist.ID = n ∧
      view.Location = rangeFirst LocationDetails.ID .zero n locs.elems ∧
      view.Date = rangeFirst Date.ID .zero n dates.elems ∧
      view.Relation = rangeFirst Relation.ID .zero n rels.elems := by
  subst hn
  refine ⟨⟨a, rangeFirst LocationDetails.ID .zero a.ID locs.elems,
    rangeFirst Date.ID .zero a.ID dates.elems, rangeFirst Relation.ID .zero a.ID rels.elems⟩,
    ?_, rfl, rfl, rfl, rfl, rfl⟩
  rw [getArtistDetails_of_success env r data a locs dates rels hid hA hU hL hD hR, hT]

/-- C6 at the specification's scenario: requesting `id=1` from `queenEnv`
gives the artist named Queen with exactly her three records. -/
theorem getArtistDetails_view_artist_witness :
    ∃ view : ArtistView,
      (getArtistDetails queenEnv (detailRequest "1")).1 =
        .executed "frontend/artists.html" view ∧
      view.Artist.Name = "Queen" ∧ view.Artist.ID = 1 ∧
      view.Location.Locations = .of ["london", "paris"] ∧
      view.Date.Dates = .of ["1975-01-01"] ∧
      view.Relation.DatesLocations = .of [("london", .of ["1975-01-01"])] := by
  obtain ⟨view, hview, hartist, hn, hloc, hdate, hrel⟩ :=
    getArtistDetails_view_artist queenEnv (detailRequest "1") queenBody queen 1
      (.of [queenLocation]) (.of [queenDate]) (.of [queenRelation])
      (by decide) (by decide) (by decide) (by decide) (by decide) (by decide) (by decide)
      (by decide)
  refine ⟨view, hview, ?_, hn, ?_, ?_, ?_⟩
  · rw [hartist]; rfl
  · rw [hloc]; rfl
  · rw [hdate]; rfl
  · rw [hrel]; rfl

/-! ## Failures -/

/-- C3: if one of the network fetches made for a detail request fails (its
`fetchData` call returns the error `e`, from `http.Get` or from reading the
body), `getArtistDetails` answers with status 500 and the text of `e`, and
produces no view: no template is executed. -/
theorem getArtistDetails_fetch_failure (env : Env) (r : Request) (url : String) (e : GoError)
    (hmade : url ∈ fetched (getArtistDetails env r).2)
    (hfail : (fetchData env url).1.2 = some e) :
    (getArtistDetails env r).1 = .httpError e.Error 500 ∧
      ∀ file view, (getArtistDetails env r).1 ≠ .executed file view := by
  suffices h : (getArtistDetails env r).1 = .httpError e.Error 500 by
    refine ⟨h, ?_⟩
    intro file view hview
    rw [h] at hview
    cases hview
  by_cases hid : r.query.Get "id" = ""
  · simp [getArtistDetails, hid, fetched] at hmade
  · have hs := getArtistDetails_summary env r hid
    rcases h0 : (fetchData env (getFullURL (artistsPath ++ "/" ++ r.query.Get "id"))).1 with
      ⟨data, _ | e0⟩
    · rcases hu : env.unmarshalArtist data with ⟨a, _ | eu⟩
      · rcases h1 : (getLocations env).1 with ⟨locs, _ | e1⟩
        · rcases h2 : (getDates env).1 with ⟨dates, _ | e2⟩
          · rcases h3 : (getRelations env).1 with ⟨rels, _ | e3⟩
            · simp only [h0, hu, h1, h2, h3, Prod.mk.injEq] at hs
              rw [hs.2] at hmade
              simp only [List.mem_cons, List.mem_singleton, List.not_mem_nil, or_false] at hmade
              rcases hmade with rfl | rfl | rfl | rfl
              · simp [h0] at hfail
              · simp [getLocations_fetch_error env e hfail] at h1
              · simp [getDates_fetch_error env e hfail] at h2
              · simp [getRelations_fetch_error env e hfail] at h3
            · simp only [h0, hu, h1, h2, h3, Prod.mk.injEq] at hs
              rw [hs.2] at hmade
              simp only [List.mem_cons, List.mem_singleton, List.not_mem_nil, or_false] at hmade
              rcases hmade with rfl | rfl | rfl | rfl
              · simp [h0] at hfail
              · simp [getLocations_fetch_error env e hfail] at h1
              · simp [getDates_fetch_error env e hfail] at h2
              · simp only [getRelations_fetch_error env e hfail, Prod.mk.injEq,
                  Option.some.injEq] at h3
                rw [hs.1, h3.2]
          · simp only [h0, hu, h1, h2, Prod.mk.injEq] at hs
            rw [hs.2] at hmade
            simp only [List.mem_cons, List.mem_singleton, List.not_mem_nil, or_false] at hmade
            rcases hmade with rfl | rfl | rfl
            · simp [h0] at hfail
            · simp [getLocations_fetch_error env e hfail] at h1
            · simp only [getDates_fetch_error env e hfail, Prod.mk.injEq,
                Option.some.injEq] at h2
              rw [hs.1, h2.2]
        · simp only [h0, hu, h1, Prod.mk.injEq] at hs
          rw [hs.2] at hmade
          simp only [List.mem_cons, List.mem_singleton, List.not_mem_nil, or_false] at hmade
          rcases hmade with rfl | rfl
          · simp [h0] at hfail
          · simp only [getLocations_fetch_error env e hfail, Prod.mk.injEq,
              Option.some.injEq] at h1
            rw [hs.1, h1.2]
      · simp only [h0, hu, Prod.mk.injEq] at hs
        rw [hs.2] at hmade
        simp only [List.mem_singleton] at hmade
        subst hmade
        simp [h0] at hfail
    · simp only [h0, Prod.mk.injEq] at hs
      rw [hs.2] at hmade
      simp only [List.mem_singleton] at hmade
      subst hmade
      simp only [h0, Option.some.injEq] at hfail
      rw [hs.1, hfail]

/-- C4: a request whose query has no `id`, or whose first `id` value is the
empty string, is answered with status 400 and the text `Missing artist ID`, and
the handler performs no effect at all before answering: no `http.Get`. -/
theorem getArtistDetails_missing_id (env : Env) (r : Request)
    (hmissing : r.query.lookup "id" = none ∨ r.query.lookup "id" = some [] ∨
      ∃ rest, r.query.lookup "id" = some ("" :: rest)) :
    getArtistDetails env r = (.httpError "Missing artist ID" 400, []) ∧
      fetched (getArtistDetails env r).2 = [] := by
  have hget : r.query.Get "id" = "" := by
    unfold Values.Get
    rcases hmissing with h | h | ⟨rest, h⟩ <;> rw [h]
  have h : getArtistDetails env r = (.httpError "Missing artist ID" 400, []) := by
    unfold getArtistDetails
    simp only [hget, if_true]
  rw [h]
  exact ⟨rfl, rfl⟩

/-- C3 at `datesDownEnv`: the dates fetch is made and fails, and the answer is
status 500 with the text of that error. -/
theorem getArtistDetails_fetch_failure_witness :
    (getArtistDetails datesDownEnv (detailRequest "1")).1 =
        .httpError "dial tcp: connection refused" 500 ∧
      ∀ file view, (getArtistDetails datesDownEnv (detailRequest "1")).1 ≠
        .executed file view :=
  getArtistDetails_fetch_failure datesDownEnv (detailRequest "1") (baseURL ++ "/dates")
    ⟨"dial tcp: connection refused"⟩ (by decide) (by decide)

/-- C4 at a request without `id` and at a request with an empty `id`. -/
theorem getArtistDetails_missing_id_witness :
    getArtistDetails queenEnv ⟨[("name", ["Queen"])]⟩ =
        (.httpError "Missing artist ID" 400, []) ∧
      getArtistDetails queenEnv (detailRequest "") = (.httpError "Missing artist ID" 400, []) :=
  ⟨(getArtistDetails_missing_id queenEnv ⟨[("name", ["Queen"])]⟩ (Or.inl (by decide))).1,
    (getArtistDetails_missing_id queenEnv (detailRequest "")
      (Or.inr (Or.inr ⟨[], by decide⟩))).1⟩

/-! ## The status of an upstream answer -/

/-- C8: `fetchData` does not look at the HTTP status.  Two upstream answers to
`url` with the same body and different status codes make `fetchData` return
the same result, namely what reading that body gives (the bytes and no error
when the read succeeds).  `fetchData` returns an error exactly when `http.Get`
fails or reading the body fails.  Each bulk accessor therefore hands the body
of an answer of any status to its decoder. -/
theorem fetchData_ignores_status (env1 env2 : Env) (url : String) (s1 s2 : Nat)
    (body : Bytes × Option GoError)
    (h1 : env1.httpGet url = .ok ⟨s1, body⟩) (h2 : env2.httpGet url = .ok ⟨s2, body⟩) :
    fetchData env1 url = fetchData env2 url ∧
    (fetchData env1 url).1 = body ∧
    (∀ (env : Env) (e : GoError), (fetchData env url).1.2 = some e ↔
      (env.httpGet url = .error e ∨
        ∃ resp, env.httpGet url = .ok resp ∧ resp.readAll.2 = some e)) ∧
    (∀ (env : Env) (s : Nat) (bytes : Bytes),
      env.httpGet (getFullURL locationsPath) = .ok ⟨s, (bytes, none)⟩ →
      (getLocations env).1 =
        match env.unmarshalLocations bytes with
        | (_, some err) => (.nil, some err)
        | (resp, none) => (resp.Locations, none)) ∧
    (∀ (env : Env) (s : Nat) (bytes : Bytes),
      env.httpGet (getFullURL datesPath) = .ok ⟨s, (bytes, none)⟩ →
      (getDates env).1 =
        match env.unmarshalDates bytes with
        | (_, some err) => (.nil, some err)
        | (resp, none) => (resp.Dates, none)) ∧
    (∀ (env : Env) (s : Nat) (bytes : Bytes),
      env.httpGet (getFullURL relationPath) = .ok ⟨s, (bytes, none)⟩ →
      (getRelations env).1 =
        match env.unmarshalRelations bytes with
        | (_, some err) => (.nil, some err)
        | (resp, none) => (resp.Relations, none)) := by
  refine ⟨?_, ?_, ?_, ?_, ?_, ?_⟩
  · simp [fetchData, h1, h2]
  · simp [fetchData, h1]
  · intro env e
    unfold fetchData
    rcases hg : env.httpGet url with err | resp
    · simp
    · simp
  · intro env s bytes h
    rw [getLocations_result]
    simp [fetchData, h]
  · intro env s bytes h
    rw [getDates_result]
    simp [fetchData, h]
  · intro env s bytes h
    rw [getRelations_result]
    simp [fetchData, h]

/-- C8 at the relations page: answered with status 200 by `queenEnv` and with
status 503 by the same upstream under `withStatus`, it is fetched with the
same result. -/
theorem fetchData_ignores_status_witness :
    fetchData queenEnv (baseURL ++ "/relation") =
        fetchData (queenEnv.withStatus (fun _ => 503)) (baseURL ++ "/relation") ∧
      (fetchData queenEnv (baseURL ++ "/relation")).1 = (relationsBody, none) :=
  have h := fetchData_ignores_status queenEnv (queenEnv.withStatus (fun _ => 503))
    (baseURL ++ "/relation") 200 503 (relationsBody, none) (by rfl) (by rfl)
  ⟨h.1, h.2.1⟩

/-- C5, as stated, fails: `queenEnv` has no artist 2 and answers
`/artists/2` with status 404 and the body of an empty JSON object; that body
decodes, and the detail request for `id=2` yields a view made of zero-valued
records, not an error. -/
theorem getArtistDetails_not_found_gives_placeholder_view :
    queenEnv.httpGet (getFullURL (artistsPath ++ "/" ++ "2")) =
        .ok ⟨404, (emptyObjectBody, none)⟩ ∧
      (getArtistDetails queenEnv (detailRequest "2")).1 =
        .executed "frontend/artists.html" ⟨.zero, .zero, .zero, .zero⟩ :=
  ⟨by rfl, by decide⟩

/-- C5, amended: when the single-artist endpoint answers not-found, the result
of the detail request is decided by the body of that answer, not by its
status.  It is the error with status 500 when the body cannot be read or does
not decode as an artist; when the body decodes, the record decoded from it is
taken for the artist, and once the bulk collections are fetched and decoded
and the template parses the result is a view.  Replacing the status of every
upstream answer changes nothing in what the handler does. -/
theorem getArtistDetails_not_found (env : Env) (r : Request) (readAll : Bytes × Option GoError)
    (hid : r.query.Get "id" ≠ "")
    (h404 : env.httpGet (getFullURL (artistsPath ++ "/" ++ r.query.Get "id")) =
      .ok ⟨404, readAll⟩) :
    (∀ e, readAll.2 = some e → (getArtistDetails env r).1 = .httpError e.Error 500) ∧
    (∀ e a, readAll.2 = none → env.unmarshalArtist readAll.1 = (a, some e) →
      (getArtistDetails env r).1 = .httpError e.Error 500) ∧
    (∀ a locs dates rels, readAll.2 = none → env.unmarshalArtist readAll.1 = (a, none) →
      (getLocations env).1 = (locs, none) → (getDates env).1 = (dates, none) →
      (getRelations env).1 = (rels, none) → env.parseFiles "frontend/artists.html" = none →
      (getArtistDetails env r).1 = .executed "frontend/artists.html"
        ⟨a, rangeFirst LocationDetails.ID .zero a.ID locs.elems,
          rangeFirst Date.ID .zero a.ID dates.elems,
          rangeFirst Relation.ID .zero a.ID rels.elems⟩) ∧
    (∀ status : String → Nat,
      getArtistDetails (env.withStatus status) r = getArtistDetails env r) := by
  have hf : (fetchData env (getFullURL (artistsPath ++ "/" ++ r.query.Get "id"))).1 = readAll := by
    simp [fetchData, h404]
  have hs := getArtistDetails_summary env r hid
  obtain ⟨data, rerr⟩ := readAll
  refine ⟨?_, ?_, ?_, ?_⟩
  · intro e he
    simp only at he
    subst he
    simp only [hf, Prod.mk.injEq] at hs
    exact hs.1
  · intro e a he hu
    simp only at he hu
    subst he
    simp only [hf, hu, Prod.mk.injEq] at hs
    exact hs.1
  · intro a locs dates rels he hu hL hD hR hT
    simp only at he hu
    subst he
    rw [getArtistDetails_of_success env r data a locs dates rels hid hf hu hL hD hR, hT]
  · intro status
    exact getArtistDetails_withStatus env status r

/-- C5, amended, at `errorPageEnv`: artist 2 is answered by a plain-text
not-found page, which does not decode, and the result is the decode error. -/
theorem getArtistDetails_not_found_witness :
    (getArtistDetails errorPageEnv (detailRequest "2")).1 =
      .httpError "invalid character" 500 :=
  (getArtistDetails_not_found errorPageEnv (detailRequest "2") (notFoundBody, none)
    (by decide) (by rfl)).2.1 ⟨"invalid character"⟩ .zero rfl (by decide)

/-! ## URLs -/

/-- C10: every URL the program fetches is the fixed base followed by a fixed
path: `getFullURL p` is `baseURL ++ p`; the bulk accessors and the listing
handler fetch exactly `/locations`, `/dates`, `/relation` and `/artists` under
the base; and for a non-empty `id` the detail handler fetches first
`baseURL ++ "/artists/" ++ id`, the identifier inserted as it is, and then
nothing but the three bulk URLs, in that order. -/
theorem fetched_urls (env : Env) (r : Request) :
    (∀ p, getFullURL p = baseURL ++ p) ∧
    fetched (getLocations env).2 = [baseURL ++ "/locations"] ∧
    fetched (getDates env).2 = [baseURL ++ "/dates"] ∧
    fetched (getRelations env).2 = [baseURL ++ "/relation"] ∧
    fetched (getArtists env r).2 = [baseURL ++ "/artists"] ∧
    (∀ id, r.query.Get "id" = id → id ≠ "" →
      (fetched (getArtistDetails env r).2).head? = some (baseURL ++ "/artists/" ++ id) ∧
      fetched (getArtistDetails env r).2 <+:
        [baseURL ++ "/artists/" ++ id, baseURL ++ "/locations", baseURL ++ "/dates",
          baseURL ++ "/relation"]) := by
  refine ⟨fun _ => rfl, fetched_getLocations env, fetched_getDates env,
    fetched_getRelations env, fetched_getArtists env r, ?_⟩
  intro id hget hid
  subst hget
  have hs := getArtistDetails_summary env r hid
  have hl : baseURL ++ "/locations" = getFullURL locationsPath := rfl
  have hd : baseURL ++ "/dates" = getFullURL datesPath := rfl
  have hr : baseURL ++ "/relation" = getFullURL relationPath := rfl
  rw [← artist_url, hl, hd, hr]
  rcases h0 : (fetchData env (getFullURL (artistsPath ++ "/" ++ r.query.Get "id"))).1 with
    ⟨data, _ | e0⟩
  · rcases hu : env.unmarshalArtist data with ⟨a, _ | eu⟩
    · rcases h1 : (getLocations env).1 with ⟨locs, _ | e1⟩
      · rcases h2 : (getDates env).1 with ⟨dates, _ | e2⟩
        · rcases h3 : (getRelations env).1 with ⟨rels, _ | e3⟩ <;>
            simp only [h0, hu, h1, h2, h3, Prod.mk.injEq] at hs <;>
            rw [hs.2] <;>
            exact ⟨rfl, List.prefix_refl _⟩
        · simp only [h0, hu, h1, h2, Prod.mk.injEq] at hs
          rw [hs.2]
          exact ⟨rfl, ⟨[getFullURL relationPath], rfl⟩⟩
      · simp only [h0, hu, h1, Prod.mk.injEq] at hs
        rw [hs.2]
        exact ⟨rfl, ⟨[getFullURL datesPath, getFullURL relationPath], rfl⟩⟩
    · simp only [h0, hu, Prod.mk.injEq] at hs
      rw [hs.2]
      exact ⟨rfl, ⟨[getFullURL locationsPath, getFullURL datesPath, getFullURL relationPath],
        rfl⟩⟩
  · simp only [h0, Prod.mk.injEq] at hs
    rw [hs.2]
    exact ⟨rfl, ⟨[getFullURL locationsPath, getFullURL datesPath, getFullURL relationPath],
      rfl⟩⟩

/-- C10 at the scenario: the request `id=1` fetches the four URLs spelled out. -/
theorem fetched_urls_witness :
    fetched (getArtistDetails queenEnv (detailRequest "1")).2 =
      ["https://groupietrackers.herokuapp.com/api/artists/1",
        "https://groupietrackers.herokuapp.com/api/locations",
        "https://groupietrackers.herokuapp.com/api/dates",
        "https://groupietrackers.herokuapp.com/api/relation"] := by
  have h := ((fetched_urls queenEnv (detailRequest "1")).2.2.2.2.2 "1" (by decide)
    (by decide)).2
  have hlen : (fetched (getArtistDetails queenEnv (detailRequest "1")).2).length = 4 := by
    decide
  exact List.IsPrefix.eq_of_length h hlen

/-! ## Error propagation -/

/-- C9: errors travel unchanged through every layer.  Each of `getLocations`,
`getDates`, `getRelations` returns the very error of its `fetchData` call or
of its `json.Unmarshal` call, with a `nil` collection, and returns no other
error.  `getArtistDetails` answers the first error among its artist fetch,
artist decode and the three accessors, and `getArtists` answers its fetch or
decode error, with status 500 and the text of that error. -/
theorem errors_propagate_unchanged (env : Env) (r : Request) :
    (∀ e, (fetchData env (getFullURL locationsPath)).1.2 = some e →
      (getLocations env).1 = (.nil, some e)) ∧
    (∀ data resp e, (fetchData env (getFullURL locationsPath)).1 = (data, none) →
      env.unmarshalLocations data = (resp, some e) → (getLocations env).1 = (.nil, some e)) ∧
    (∀ e, (getLocations env).1.2 = some e → (getLocations env).1.1 = .nil ∧
      ((fetchData env (getFullURL locationsPath)).1.2 = some e ∨
        ∃ data, (fetchData env (getFullURL locationsPath)).1 = (data, none) ∧
          (env.unmarshalLocations data).2 = some e)) ∧
    (∀ e, (fetchData env (getFullURL datesPath)).1.2 = some e →
      (getDates env).1 = (.nil, some e)) ∧
    (∀ data resp e, (fetchData env (getFullURL datesPath)).1 = (data, none) →
      env.unmarshalDates data = (resp, some e) → (getDates env).1 = (.nil, some e)) ∧
    (∀ e, (getDates env).1.2 = some e → (getDates env).1.1 = .nil ∧
      ((fetchData env (getFullURL datesPath)).1.2 = some e ∨
        ∃ data, (fetchData env (getFullURL datesPath)).1 = (data, none) ∧
          (env.unmarshalDates data).2 = some e)) ∧
    (∀ e, (fetchData env (getFullURL relationPath)).1.2 = some e →
      (getRelations env).1 = (.nil, some e)) ∧
    (∀ data resp e, (fetchData env (getFullURL relationPath)).1 = (data, none) →
      env.unmarshalRelations data = (resp, some e) → (getRelations env).1 = (.nil, some e)) ∧
    (∀ e, (getRelations env).1.2 = some e → (getRelations env).1.1 = .nil ∧
      ((fetchData env (getFullURL relationPath)).1.2 = some e ∨
        ∃ data, (fetchData env (getFullURL relationPath)).1 = (data, none) ∧
          (env.unmarshalRelations data).2 = some e)) ∧
    (∀ e, r.query.Get "id" ≠ "" →
      (fetchData env (getFullURL (artistsPath ++ "/" ++ r.query.Get "id"))).1.2 = some e →
      (getArtistDetails env r).1 = .httpError e.Error 500) ∧
    (∀ data a e, r.query.Get "id" ≠ "" →
      (fetchData env (getFullURL (artistsPath ++ "/" ++ r.query.Get "id"))).1 = (data, none) →
      env.unmarshalArtist data = (a, some e) →
      (getArtistDetails env r).1 = .httpError e.Error 500) ∧
    (∀ data a e, r.query.Get "id" ≠ "" →
      (fetchData env (getFullURL (artistsPath ++ "/" ++ r.query.Get "id"))).1 = (data, none) →
      env.unmarshalArtist data = (a, none) →
      (getLocations env).1.2 = some e →
      (getArtistDetails env r).1 = .httpError e.Error 500) ∧
    (∀ data a e, r.query.Get "id" ≠ "" →
      (fetchData env (getFullURL (artistsPath ++ "/" ++ r.query.Get "id"))).1 = (data, none) →
      env.unmarshalArtist data = (a, none) →
      (getLocations env).1.2 = none → (getDates env).1.2 = some e →
      (getArtistDetails env r).1 = .httpError e.Error 500) ∧
    (∀ data a e, r.query.Get "id" ≠ "" →
      (fetchData env (getFullURL (artistsPath ++ "/" ++ r.query.Get "id"))).1 = (data, none) →
      env.unmarshalArtist data = (a, none) →
      (getLocations env).1.2 = none → (getDates env).1.2 = none →
      (getRelations env).1.2 = some e →
      (getArtistDetails env r).1 = .httpError e.Error 500) ∧
    (∀ e, (fetchData env (getFullURL artistsPath)).1.2 = some e →
      (getArtists env r).1 = .httpError e.Error 500) ∧
    (∀ data artists e, (fetchData env (getFullURL artistsPath)).1 = (data, none) →
      env.unmarshalArtists data = (artists, some e) →
      (getArtists env r).1 = .httpError e.Error 500) := by
  refine ⟨?_, ?_, ?_, ?_, ?_, ?_, ?_, ?_, ?_, ?_, ?_, ?_, ?_, ?_, ?_, ?_⟩
  · intro e he
    exact getLocations_fetch_error env e he
  · intro data resp e hf hu
    rw [getLocations_result, hf]
    simp only [hu]
  · intro e he
    rw [getLocations_result] at he ⊢
    rcases hf : (fetchData env (getFullURL locationsPath)).1 with ⟨data, _ | ef⟩
    · rcases hu : env.unmarshalLocations data with ⟨resp, _ | eu⟩
      · simp [hf, hu] at he
      · simp only [hf, hu, Option.some.injEq] at he
        subst he
        simp [hf, hu]
    · simp only [hf, Option.some.injEq] at he
      subst he
      simp [hf]
  · intro e he
    exact getDates_fetch_error env e he
  · intro data resp e hf hu
    rw [getDates_result, hf]
    simp only [hu]
  · intro e he
    rw [getDates_result] at he ⊢
    rcases hf : (fetchData env (getFullURL datesPath)).1 with ⟨data, _ | ef⟩
    · rcases hu : env.unmarshalDates data with ⟨resp, _ | eu⟩
      · simp [hf, hu] at he
      · simp only [hf, hu, Option.some.injEq] at he
        subst he
        simp [hf, hu]
    · simp only [hf, Option.some.injEq] at he
      subst he
      simp [hf]
  · intro e he
    exact getRelations_fetch_error env e he
  · intro data resp e hf hu
    rw [getRelations_result, hf]
    simp only [hu]
  · intro e he
    rw [getRelations_result] at he ⊢
    rcases hf : (fetchData env (getFullURL relationPath)).1 with ⟨data, _ | ef⟩
    · rcases hu : env.unmarshalRelations data with ⟨resp, _ | eu⟩
      · simp [hf, hu] at he
      · simp only [hf, hu, Option.some.injEq] at he
        subst he
        simp [hf, hu]
    · simp only [hf, Option.some.injEq] at he
      subst he
      simp [hf]
  · intro e hid he
    have hs := getArtistDetails_summary env r hid
    rcases hf : (fetchData env (getFullURL (artistsPath ++ "/" ++ r.query.Get "id"))).1 with
      ⟨data, _ | ef⟩
    · simp [hf] at he
    · simp only [hf, Option.some.injEq] at he
      subst he
      simp only [hf, Prod.mk.injEq] at hs
      exact hs.1
  · intro data a e hid hf hu
    have hs := getArtistDetails_summary env r hid
    simp only [hf, hu, Prod.mk.injEq] at hs
    exact hs.1
  · intro data a e hid hf hu h1
    have hs := getArtistDetails_summary env r hid
    rcases hl : (getLocations env).1 with ⟨locs, _ | e1⟩
    · simp [hl] at h1
    · simp only [hl, Option.some.injEq] at h1
      subst h1
      simp only [hf, hu, hl, Prod.mk.injEq] at hs
      exact hs.1
  · intro data a e hid hf hu h1 h2
    have hs := getArtistDetails_summary env r hid
    rcases hl : (getLocations env).1 with ⟨locs, _ | e1⟩
    · rcases hd : (getDates env).1 with ⟨dates, _ | e2⟩
      · simp [hd] at h2
      · simp only [hd, Option.some.injEq] at h2
        subst h2
        simp only [hf, hu, hl, hd, Prod.mk.injEq] at hs
        exact hs.1
    · simp [hl] at h1
  · intro data a e hid hf hu h1 h2 h3
    have hs := getArtistDetails_summary env r hid
    rcases hl : (getLocations env).1 with ⟨locs, _ | e1⟩
    · rcases hd : (getDates env).1 with ⟨dates, _ | e2⟩
      · rcases hr : (getRelations env).1 with ⟨rels, _ | e3⟩
        · simp [hr] at h3
        · simp only [hr, Option.some.injEq] at h3
          subst h3
          simp only [hf, hu, hl, hd, hr, Prod.mk.injEq] at hs
          exact hs.1
      · simp [hd] at h2
    · simp [hl] at h1
  · intro e he
    rw [getArtists_result]
    rcases hf : (fetchData env (getFullURL artistsPath)).1 with ⟨data, _ | ef⟩
    · simp [hf] at he
    · simp only [hf, Option.some.injEq] at he
      subst he
      rfl
  · intro data artists e hf hu
    rw [getArtists_result, hf]
    simp only [hu]

/-- C9 at `errorPageEnv`: the relations page is an HTML error page, so
`getRelations` returns the decode error with a `nil` collection and the detail
handler answers it with status 500; the artists listing fails while its body
is read, and the listing handler answers that error with status 500. -/
theorem errors_propagate_unchanged_witness :
    (getRelations errorPageEnv).1 = (.nil, some ⟨"invalid character"⟩) ∧
      (getArtistDetails errorPageEnv (detailRequest "1")).1 =
        .httpError "invalid character" 500 ∧
      (getArtists errorPageEnv (detailRequest "1")).1 = .httpError "unexpected EOF" 500 :=
  have h := errors_propagate_unchanged errorPageEnv (detailRequest "1")
  ⟨h.2.2.2.2.2.2.2.1 errorPageBody ⟨.nil⟩ ⟨"invalid character"⟩ (by decide) (by decide),
    h.2.2.2.2.2.2.2.2.2.2.2.2.2.1 queenBody queen ⟨"invalid character"⟩ (by decide)
      (by decide) (by decide) (by decide) (by decide) (by decide),
    h.2.2.2.2.2.2.2.2.2.2.2.2.2.2.1 ⟨"unexpected EOF"⟩ (by decide)⟩

/-! ## The order of the bulk fetches -/

/-- C7, as stated, fails: at `twoDownEnv` the locations fetch and the dates
fetch both fail, each with its own error.  The source runs `getLocations`
first and answers the locations error; with `getDates` run first the answer is
the dates error. -/
theorem bulk_order_changes_error_text :
    (getArtistDetails twoDownEnv (detailRequest "1")).1 =
        .httpError "locations: connection refused" 500 ∧
      (getArtistDetailsIn .dlr twoDownEnv (detailRequest "1")).1 =
        .httpError "dates: connection reset by peer" 500 ∧
      (getArtistDetailsIn .dlr twoDownEnv (detailRequest "1")).1 ≠
        (getArtistDetails twoDownEnv (detailRequest "1")).1 := by
  decide

/-- C7, amended: for an upstream whose answer to a URL does not depend on the
order of the requests, running the three bulk accessors in any of the six
orders gives the same response as the source's order whenever at most one of
the three accessors fails.  In every case a view is produced in one order
exactly when it is produced in the source's order, and it is the same view;
and an error answer in one order is an error answer with the same status in
the source's order.  Its text depends on the order: once the artist is fetched
and decoded, the answer in the order `order` is status 500 with the text of the
error of the first accessor, in that order, that fails, and the answer of the
source is the one for the order locations, dates, relations. -/
theorem bulk_order_irrelevant (order : BulkOrder) (env : Env) (r : Request) :
    (atMostOneBulkFails env →
      (getArtistDetailsIn order env r).1 = (getArtistDetails env r).1) ∧
    (∀ file view, (getArtistDetailsIn order env r).1 = .executed file view ↔
      (getArtistDetails env r).1 = .executed file view) ∧
    (∀ msg code, (getArtistDetailsIn order env r).1 = .httpError msg code →
      ∃ msg1, (getArtistDetails env r).1 = .httpError msg1 code) ∧
    (∀ data a e i (h : i < order.accessors.length), r.query.Get "id" ≠ "" →
      (fetchData env (getFullURL (artistsPath ++ "/" ++ r.query.Get "id"))).1 = (data, none) →
      env.unmarshalArtist data = (a, none) →
      bulkError env order.accessors[i] = some e →
      (∀ b ∈ order.accessors.take i, bulkError env b = none) →
      (getArtistDetailsIn order env r).1 = .httpError e.Error 500) ∧
    (∀ data a e i (h : i < BulkOrder.ldr.accessors.length), r.query.Get "id" ≠ "" →
      (fetchData env (getFullURL (artistsPath ++ "/" ++ r.query.Get "id"))).1 = (data, none) →
      env.unmarshalArtist data = (a, none) →
      bulkError env BulkOrder.ldr.accessors[i] = some e →
      (∀ b ∈ BulkOrder.ldr.accessors.take i, bulkError env b = none) →
      (getArtistDetails env r).1 = .httpError e.Error 500) := by
  have hsame : (atMostOneBulkFails env →
        (getArtistDetailsIn order env r).1 = (getArtistDetails env r).1) ∧
      (∀ file view, (getArtistDetailsIn order env r).1 = .executed file view ↔
        (getArtistDetails env r).1 = .executed file view) ∧
      (∀ msg code, (getArtistDetailsIn order env r).1 = .httpError msg code →
        ∃ msg1, (getArtistDetails env r).1 = .httpError msg1 code) := by
    unfold atMostOneBulkFails getArtistDetailsIn getArtistDetails
    by_cases hid : r.query.Get "id" = ""
    · simp [hid]
    · simp only [hid, if_false]
      rcases h0 : fetchData env (getFullURL (artistsPath ++ "/" ++ r.query.Get "id")) with
        ⟨⟨data, _ | e0⟩, t0⟩
      · rcases hu : env.unmarshalArtist data with ⟨a, _ | eu⟩
        · rcases hL : getLocations env with ⟨⟨locs, _ | e1⟩, t1⟩ <;>
            rcases hD : getDates env with ⟨⟨dates, _ | e2⟩, t2⟩ <;>
            rcases hR : getRelations env with ⟨⟨rels, _ | e3⟩, t3⟩ <;>
            cases hp : env.parseFiles "frontend/artists.html" <;>
            cases order <;>
            simp [hu, BulkOrder.accessors, runBulks, runBulk, hL, hD, hR, hp]
        · simp [hu]
      · simp
  refine ⟨hsame.1, hsame.2.1, hsame.2.2, ?_, ?_⟩
  · intro data a e i h hid hf hu hi hbefore
    exact getArtistDetailsIn_first_error order env r data a e i h hid hf hu hi hbefore
  · intro data a e i h hid hf hu hi hbefore
    rw [← getArtistDetailsIn_ldr]
    exact getArtistDetailsIn_first_error .ldr env r data a e i h hid hf hu hi hbefore

set_option maxRecDepth 100000 in
/-- C7, amended, at `datesDownEnv`, where only the dates fetch fails: with the
relations fetched first and the locations last, the answer is the one of the
source's order.  At `twoDownEnv`, where the locations and the dates both fail,
the order dates, relations, locations answers the dates error and the source
answers the locations error. -/
theorem bulk_order_irrelevant_witness :
    (getArtistDetailsIn .rdl datesDownEnv (detailRequest "1")).1 =
        (getArtistDetails datesDownEnv (detailRequest "1")).1 ∧
      (getArtistDetailsIn .drl twoDownEnv (detailRequest "1")).1 =
        .httpError "dates: connection reset by peer" 500 ∧
      (getArtistDetails twoDownEnv (detailRequest "1")).1 =
        .httpError "locations: connection refused" 500 :=
  ⟨(bulk_order_irrelevant .rdl datesDownEnv (detailRequest "1")).1
      (Or.inr (Or.inl ⟨by decide, by decide⟩)),
    (bulk_order_irrelevant .drl twoDownEnv (detailRequest "1")).2.2.2.1 queenBody queen
      ⟨"dates: connection reset by peer"⟩ 0 (by decide) (by decide) (by decide) (by decide)
      (by decide) (by decide),
    (bulk_order_irrelevant .drl twoDownEnv (detailRequest "1")).2.2.2.2 queenBody queen
      ⟨"locations: connection refused"⟩ 0 (by decide) (by decide) (by decide) (by decide)
      (by decide) (by decide)⟩

end GroupieTracker
